import Mathlib

/-!
Verification of the DELTA E6B flight-computer repository.

The ring/phase mapping (`realm_mirror`, `realm_phase`, `realm_address`,
`geometry_score`) is embedded from `src/DELTA_E6B_FINAL_computer.py`.
Python integers are modelled as `ℤ`; Python's `%` with a positive modulus
agrees with `Int.emod`.  The navigation functions (`haversine_distance`,
`great_circle_course`) are imported by the validation harness from a module
absent from the repository sources, so they are modelled from the spec over
the real numbers.
-/

namespace DeltaE6B

/-- Ring size, from `DELTA_E6B_FINAL_computer.py` line 31: `N = 1477`. -/
def N : ℤ := 1477

/-- Ring centre, from `DELTA_E6B_FINAL_computer.py` line 32: `CENTER = 739`. -/
def CENTER : ℤ := 739

/-- The tri-state tuple, from line 33: `STATES = (1, -1, 0)`. -/
def STATES : List ℤ := [1, -1, 0]

/-- The mirror index `(N + 1) - n`, from `realm_mirror` (lines 43-45). -/
def realm_mirror (n : ℤ) : ℤ := (N + 1) - n

/-- The phase `STATES[(n - 1) % 3]`, from `realm_phase` (lines 47-49).
Python's `%` on a positive
modulus is `Int.emod`, whose result lies in `[0, 2]`, so the tuple index is
in range; `getD` with default `0` never falls back to the default. -/
def realm_phase (n : ℤ) : ℤ := STATES.getD ((n - 1) % 3).toNat 0

/-- The anchor index `1 + (sum of character codes of label) % N`, from
`realm_address` (lines 51-59); `ord(ch)` is the Unicode code point, i.e.
`Char.toNat`. -/
def realm_address (label : String) : ℤ :=
  1 + (label.data.map fun c => (c.toNat : ℤ)).sum % N

/-- The score `geometry_score(n, desired_phase)` from lines 61-83: clamped Pythagorean
combination of a centre score, a phase score and a mirror-harmony score.
`desired_phase = none` models Python's `desired_phase=None`. -/
noncomputable def geometry_score (n : ℤ) (desired_phase : Option ℤ) : ℝ :=
  let d : ℤ := |n - CENTER|
  let s_center : ℝ := max 0 (min 1 (1 - (d : ℝ) / (CENTER : ℝ)))
  let s_phase : ℝ :=
    match desired_phase with
    | none => 0.5
    | some p => if realm_phase n = p then 1 else 0
  let s_mirror : ℝ := if realm_phase (realm_mirror n) ≠ realm_phase n then 1 else 0
  let j : ℝ := Real.sqrt (0.5 * s_center * s_center +
    0.33 * s_phase * s_phase + 0.17 * s_mirror * s_mirror)
  max 0 (min 1 j)

/-- Earth radius in nautical miles.  The validation harness
(`DELTA_E6B_FINAL_VALIDATION_v3.py`) checks `EARTH_RADIUS_NM` against
3440.1 NM. -/
noncomputable def EARTH_RADIUS_NM : ℝ := 3440.1

/-- Degrees to radians. -/
noncomputable def toRadians (x : ℝ) : ℝ := x * Real.pi / 180

/-- Radians to degrees. -/
noncomputable def toDegrees (x : ℝ) : ℝ := x * 180 / Real.pi

/-- Modelled from the spec: `haversine_distance` is imported from
`DELTA_E6B_ENHANCED_v2`, which is absent from the repository sources.
Spec §4.3: converts both points to radians, applies the standard haversine
formula, multiplies by the Earth radius (3440.1 NM).  Idealised over `ℝ`. -/
noncomputable def haversine_distance (lat1 lon1 lat2 lon2 : ℝ) : ℝ :=
  let phi1 := toRadians lat1
  let phi2 := toRadians lat2
  let dPhi := toRadians (lat2 - lat1)
  let dLam := toRadians (lon2 - lon1)
  let a := Real.sin (dPhi / 2) ^ 2 +
    Real.cos phi1 * Real.cos phi2 * Real.sin (dLam / 2) ^ 2
  EARTH_RADIUS_NM * (2 * Real.arcsin (Real.sqrt a))

/-- Normalisation of an angle in degrees to the half-open window `[0, 360)`,
as the spec's "normalized to [0, 360)". -/
noncomputable def norm360 (x : ℝ) : ℝ := x - 360 * (⌊x / 360⌋ : ℝ)

/-- Modelled from the spec: `great_circle_course` is imported from
`DELTA_E6B_ENHANCED_v2`, which is absent from the repository sources.
Spec §4.4: the standard spherical initial-bearing formula
`atan2(sin Δλ · cos φ₂, cos φ₁ · sin φ₂ − sin φ₁ · cos φ₂ · cos Δλ)`,
converted to degrees and normalised to `[0, 360)`.  `atan2 y x` is the
argument of the complex number `x + y·i`. -/
noncomputable def great_circle_course (lat1 lon1 lat2 lon2 : ℝ) : ℝ :=
  let phi1 := toRadians lat1
  let phi2 := toRadians lat2
  let dLam := toRadians (lon2 - lon1)
  let num := Real.sin dLam * Real.cos phi2
  let den := Real.cos phi1 * Real.sin phi2 -
    Real.sin phi1 * Real.cos phi2 * Real.cos dLam
  norm360 (toDegrees (Complex.arg ⟨den, num⟩))

/-- A floating-point input value: either a finite real or one of the
non-finite IEEE values.  Used to model the spec's validation contract for
NaN and the infinities. -/
inductive FloatVal where
  | fin (x : ℝ)
  | nan
  | posInf
  | negInf

/-- Whether a floating-point input is finite. -/
def FloatVal.isFinite : FloatVal → Bool
  | .fin _ => true
  | _ => false

/-- The real value carried by a finite input (0 for non-finite ones). -/
noncomputable def FloatVal.val : FloatVal → ℝ
  | .fin x => x
  | _ => 0

open Classical

/-- Modelled from the spec: the validation contract of §7 around the
distance function — reject non-finite inputs and latitudes with
`|lat| > 90`, otherwise return the haversine distance. -/
noncomputable def checkedHaversine (lat1 lon1 lat2 lon2 : FloatVal) : Option ℝ :=
  if lat1.isFinite && lon1.isFinite && lat2.isFinite && lon2.isFinite then
    if |lat1.val| ≤ 90 ∧ |lat2.val| ≤ 90 then
      some (haversine_distance lat1.val lon1.val lat2.val lon2.val)
    else none
  else none

/-- Modelled from the spec: the validation contract of §7 around the
initial-bearing function — reject non-finite inputs and latitudes with
`|lat| > 90`, otherwise return the great-circle course. -/
noncomputable def checkedCourse (lat1 lon1 lat2 lon2 : FloatVal) : Option ℝ :=
  if lat1.isFinite && lon1.isFinite && lat2.isFinite && lon2.isFinite then
    if |lat1.val| ≤ 90 ∧ |lat2.val| ≤ 90 then
      some (great_circle_course lat1.val lon1.val lat2.val lon2.val)
    else none
  else none

end DeltaE6B

namespace DeltaE6B

/-- Normalising with `norm360` always lands in `[0, 360)`. -/
theorem norm360_mem (x : ℝ) : 0 ≤ norm360 x ∧ norm360 x < 360 := by
  have h0 : (0 : ℝ) ≤ Int.fract (x / 360) := Int.fract_nonneg _
  have h1 : Int.fract (x / 360) < 1 := Int.fract_lt_one _
  have hd : Int.fract (x / 360) = x / 360 - (⌊x / 360⌋ : ℝ) := rfl
  have he : norm360 x = 360 * Int.fract (x / 360) := by
    rw [hd]; unfold norm360; ring
  rw [he]
  constructor <;> nlinarith

/-- C5: for valid coordinates the haversine distance is non-negative, and the
self-distance of a point is (well) below the 1 NM tolerance — in the ideal
real-number model it is exactly 0. -/
theorem haversine_nonneg_and_self_small (lat1 lon1 lat2 lon2 : ℝ)
    (h1 : -90 ≤ lat1 ∧ lat1 ≤ 90) (h2 : -90 ≤ lat2 ∧ lat2 ≤ 90) :
    0 ≤ haversine_distance lat1 lon1 lat2 lon2 ∧
      |haversine_distance lat1 lon1 lat1 lon1| < 1 := by
  constructor
  · show 0 ≤ EARTH_RADIUS_NM * (2 * Real.arcsin (Real.sqrt _))
    have hR : (0 : ℝ) ≤ EARTH_RADIUS_NM := by unfold EARTH_RADIUS_NM; norm_num
    exact mul_nonneg hR (mul_nonneg (by norm_num)
      (Real.arcsin_nonneg.mpr (Real.sqrt_nonneg _)))
  · have hz : haversine_distance lat1 lon1 lat1 lon1 = 0 := by
      unfold haversine_distance toRadians
      simp
    rw [hz]
    norm_num

/-- Witness for C5 at the two points `(0, 0)` and `(45, 45)`. -/
theorem haversine_nonneg_and_self_small_witness :
    ((-90 : ℝ) ≤ 0 ∧ (0 : ℝ) ≤ 90) ∧ ((-90 : ℝ) ≤ 45 ∧ (45 : ℝ) ≤ 90) ∧
      (0 ≤ haversine_distance 0 0 45 45 ∧ |haversine_distance 0 0 0 0| < 1) :=
  ⟨by norm_num, by norm_num,
    haversine_nonneg_and_self_small 0 0 45 45 (by norm_num) (by norm_num)⟩

/-- C6: the haversine distance from `(0,0)` to `(0,180)` is the half
circumference `π·R`, and from `(0,0)` to `(90,0)` the quarter circumference
`π·R/2` — exactly, in the ideal real-number model. -/
theorem haversine_half_and_quarter_circumference :
    haversine_distance 0 0 0 180 = Real.pi * EARTH_RADIUS_NM ∧
      haversine_distance 0 0 90 0 = Real.pi * EARTH_RADIUS_NM / 2 := by
  constructor
  · show EARTH_RADIUS_NM * (2 * Real.arcsin (Real.sqrt _)) = _
    rw [show toRadians (0 - 0) / 2 = 0 by unfold toRadians; ring,
      show toRadians ((180 : ℝ) - 0) / 2 = Real.pi / 2 by unfold toRadians; ring,
      show toRadians (0 : ℝ) = 0 by unfold toRadians; ring]
    rw [Real.sin_zero, Real.cos_zero, Real.sin_pi_div_two]
    norm_num [Real.arcsin_one]
    ring
  · show EARTH_RADIUS_NM * (2 * Real.arcsin (Real.sqrt _)) = _
    rw [show toRadians ((90 : ℝ) - 0) / 2 = Real.pi / 4 by unfold toRadians; ring,
      show toRadians ((0 : ℝ) - 0) / 2 = 0 by unfold toRadians; ring,
      show toRadians (0 : ℝ) = 0 by unfold toRadians; ring]
    rw [Real.sin_zero, Real.sin_pi_div_four]
    have hsq : (Real.sqrt 2 / 2) ^ 2 = 1 / 2 := by
      rw [div_pow, Real.sq_sqrt (by norm_num : (0 : ℝ) ≤ 2)]; norm_num
    have hs2 : (Real.sqrt 2)⁻¹ = Real.sqrt 2 / 2 := by
      have h2 : Real.sqrt 2 ≠ 0 := by positivity
      field_simp
    have ha : Real.arcsin (Real.sqrt 2 / 2) = Real.pi / 4 := by
      rw [← Real.sin_pi_div_four]
      exact Real.arcsin_sin (by linarith [Real.pi_pos]) (by linarith [Real.pi_pos])
    rw [hsq]
    norm_num
    rw [hs2, ha]
    ring

/-- C7: for valid, distinct coordinates, the great-circle initial bearing
lies in the half-open interval `[0, 360)` degrees. -/
theorem great_circle_course_range (lat1 lon1 lat2 lon2 : ℝ)
    (h1 : -90 ≤ lat1 ∧ lat1 ≤ 90) (h2 : -90 ≤ lat2 ∧ lat2 ≤ 90)
    (hne : (lat1, lon1) ≠ (lat2, lon2)) :
    0 ≤ great_circle_course lat1 lon1 lat2 lon2 ∧
      great_circle_course lat1 lon1 lat2 lon2 < 360 :=
  norm360_mem _

/-- C8: the checked navigation functions reject any call with a non-finite
input, reject any call with a latitude of magnitude above 90, and on every
other input return the real-valued (hence finite) result of the underlying
pure function. -/
theorem nav_validation_contract (lat1 lon1 lat2 lon2 : FloatVal) :
    ((lat1.isFinite && lon1.isFinite && lat2.isFinite && lon2.isFinite) = false →
      checkedHaversine lat1 lon1 lat2 lon2 = none ∧
        checkedCourse lat1 lon1 lat2 lon2 = none) ∧
    (90 < |lat1.val| ∨ 90 < |lat2.val| →
      checkedHaversine lat1 lon1 lat2 lon2 = none ∧
        checkedCourse lat1 lon1 lat2 lon2 = none) ∧
    ((lat1.isFinite && lon1.isFinite && lat2.isFinite && lon2.isFinite) = true →
      |lat1.val| ≤ 90 → |lat2.val| ≤ 90 →
      checkedHaversine lat1 lon1 lat2 lon2 =
          some (haversine_distance lat1.val lon1.val lat2.val lon2.val) ∧
        checkedCourse lat1 lon1 lat2 lon2 =
          some (great_circle_course lat1.val lon1.val lat2.val lon2.val)) := by
  unfold checkedHaversine checkedCourse
  split_ifs with hfin hlat
  · refine ⟨fun h => ?_, fun h => ?_, fun _ _ _ => ⟨rfl, rfl⟩⟩
    · rw [h] at hfin; cases hfin
    · rcases h with h | h <;> rcases hlat with ⟨ha, hb⟩ <;> linarith
  · refine ⟨fun h => ?_, fun _ => ⟨rfl, rfl⟩, fun _ h1 h2 => ?_⟩
    · rw [h] at hfin; cases hfin
    · exact absurd ⟨h1, h2⟩ hlat
  · refine ⟨fun _ => ⟨rfl, rfl⟩, fun _ => ⟨rfl, rfl⟩, fun h _ _ => ?_⟩
    exact absurd h (by simpa using hfin)

/-- Witness for C8: a NaN latitude is rejected, an out-of-range latitude of
100° is rejected, and the all-valid call `(0,0) → (45,45)` passes validation
and returns the underlying distance and course. -/
theorem nav_validation_contract_witness :
    (checkedHaversine FloatVal.nan (FloatVal.fin 0) (FloatVal.fin 0)
        (FloatVal.fin 0) = none ∧
      checkedCourse FloatVal.nan (FloatVal.fin 0) (FloatVal.fin 0)
        (FloatVal.fin 0) = none) ∧
    (checkedHaversine (FloatVal.fin 100) (FloatVal.fin 0) (FloatVal.fin 0)
        (FloatVal.fin 0) = none ∧
      checkedCourse (FloatVal.fin 100) (FloatVal.fin 0) (FloatVal.fin 0)
        (FloatVal.fin 0) = none) ∧
    (checkedHaversine (FloatVal.fin 0) (FloatVal.fin 0) (FloatVal.fin 45)
        (FloatVal.fin 45) = some (haversine_distance 0 0 45 45) ∧
      checkedCourse (FloatVal.fin 0) (FloatVal.fin 0) (FloatVal.fin 45)
        (FloatVal.fin 45) = some (great_circle_course 0 0 45 45)) :=
  ⟨(nav_validation_contract FloatVal.nan (FloatVal.fin 0) (FloatVal.fin 0)
      (FloatVal.fin 0)).1 rfl,
   (nav_validation_contract (FloatVal.fin 100) (FloatVal.fin 0) (FloatVal.fin 0)
      (FloatVal.fin 0)).2.1 (Or.inl (by show (90 : ℝ) < |(100 : ℝ)|; norm_num)),
   (nav_validation_contract (FloatVal.fin 0) (FloatVal.fin 0) (FloatVal.fin 45)
      (FloatVal.fin 45)).2.2 rfl
      (by show |(0 : ℝ)| ≤ 90; norm_num)
      (by show |(45 : ℝ)| ≤ 90; norm_num)⟩

/-- Witness for C7 from `(0, 0)` to `(45, 90)`. -/
theorem great_circle_course_range_witness :
    ((-90 : ℝ) ≤ 0 ∧ (0 : ℝ) ≤ 90) ∧ ((-90 : ℝ) ≤ 45 ∧ (45 : ℝ) ≤ 90) ∧
      ((0 : ℝ), (0 : ℝ)) ≠ ((45 : ℝ), (90 : ℝ)) ∧
      (0 ≤ great_circle_course 0 0 45 90 ∧ great_circle_course 0 0 45 90 < 360) :=
  ⟨by norm_num, by norm_num, by norm_num [Prod.ext_iff],
    great_circle_course_range 0 0 45 90 (by norm_num) (by norm_num)
      (by norm_num [Prod.ext_iff])⟩

/-- C1: for every integer `n` in `[1, N]`, the mirror is an involution:
`realm_mirror (realm_mirror n) = n`. -/
theorem realm_mirror_involution (n : ℤ) (h1 : 1 ≤ n) (h2 : n ≤ N) :
    realm_mirror (realm_mirror n) = n := by
  simp [realm_mirror]

/-- Witness for C1 at `n = 3`. -/
theorem realm_mirror_involution_witness :
    (1 : ℤ) ≤ 3 ∧ (3 : ℤ) ≤ N ∧ realm_mirror (realm_mirror 3) = 3 :=
  ⟨by decide, by decide, realm_mirror_involution 3 (by decide) (by decide)⟩

/-- C2: `realm_address` returns exactly `1 + (sum of character codes mod N)`,
and this value lies in `[1, N]`. -/
theorem realm_address_formula_and_range (s : String) :
    realm_address s = 1 + (s.data.map fun c => (c.toNat : ℤ)).sum % N ∧
    1 ≤ realm_address s ∧ realm_address s ≤ N := by
  refine ⟨rfl, ?_, ?_⟩
  · have h := Int.emod_nonneg ((s.data.map fun c => (c.toNat : ℤ)).sum)
      (by decide : (N : ℤ) ≠ 0)
    unfold realm_address
    omega
  · have h := Int.emod_lt_of_pos ((s.data.map fun c => (c.toNat : ℤ)).sum)
      (by decide : (0 : ℤ) < N)
    unfold realm_address
    omega

/-- C3: for `n` in `[1, N]`, `realm_phase n` equals `STATES[(n-1) % 3]`, is one
of `{1, -1, 0}`, and is periodic with period 3 inside the ring. -/
theorem realm_phase_states_and_period (n : ℤ) (h1 : 1 ≤ n) (h2 : n ≤ N) :
    realm_phase n = STATES.getD ((n - 1) % 3).toNat 0 ∧
    (realm_phase n = 1 ∨ realm_phase n = -1 ∨ realm_phase n = 0) ∧
    (n + 3 ≤ N → realm_phase (n + 3) = realm_phase n) := by
  refine ⟨rfl, ?_, ?_⟩
  · have h3 : (n - 1) % 3 = 0 ∨ (n - 1) % 3 = 1 ∨ (n - 1) % 3 = 2 := by omega
    rcases h3 with h | h | h <;> simp [realm_phase, STATES, h]
  · intro _
    have h3 : (n + 3 - 1) % 3 = (n - 1) % 3 := by omega
    simp [realm_phase, h3]

/-- Witness for C3 at `n = 5`. -/
theorem realm_phase_states_and_period_witness :
    (1 : ℤ) ≤ 5 ∧ (5 : ℤ) ≤ N ∧
    (realm_phase 5 = STATES.getD (((5 : ℤ) - 1) % 3).toNat 0 ∧
      (realm_phase 5 = 1 ∨ realm_phase 5 = -1 ∨ realm_phase 5 = 0) ∧
      ((5 : ℤ) + 3 ≤ N → realm_phase (5 + 3) = realm_phase 5)) :=
  ⟨by decide, by decide, realm_phase_states_and_period 5 (by decide) (by decide)⟩

/-- C4: `realm_address` is deterministic and pure — two calls on the same
string give the same index; the result depends on nothing but the argument. -/
theorem realm_address_deterministic (s t : String) (h : s = t) :
    realm_address s = realm_address t := by
  rw [h]

/-- Witness for C4 at the label `"course_90"`. -/
theorem realm_address_deterministic_witness :
    "course_90" = "course_90" ∧
      realm_address ("course_90") = realm_address ("course_90") :=
  ⟨rfl, realm_address_deterministic ("course_90") ("course_90") rfl⟩

/-- C9: the ring `[1, N]` is closed under the mirror: for `n` in `[1, N]`,
`realm_mirror n` is in `[1, N]`. -/
theorem realm_mirror_closed (n : ℤ) (h1 : 1 ≤ n) (h2 : n ≤ N) :
    1 ≤ realm_mirror n ∧ realm_mirror n ≤ N := by
  unfold realm_mirror N at *
  omega

/-- Witness for C9 at `n = 1477`. -/
theorem realm_mirror_closed_witness :
    (1 : ℤ) ≤ 1477 ∧ (1477 : ℤ) ≤ N ∧
      (1 ≤ realm_mirror 1477 ∧ realm_mirror 1477 ≤ N) :=
  ⟨by decide, by decide, realm_mirror_closed 1477 (by decide) (by decide)⟩

/-- C10: for every integer `n` and desired phase in `{1, -1, 0, None}`,
`geometry_score` lies in the closed interval `[0, 1]`. -/
theorem geometry_score_bounded (n : ℤ) (p : Option ℤ)
    (hp : p = none ∨ p = some 1 ∨ p = some (-1) ∨ p = some 0) :
    0 ≤ geometry_score n p ∧ geometry_score n p ≤ 1 := by
  unfold geometry_score
  constructor
  · exact le_max_left 0 _
  · exact max_le (by norm_num) (min_le_left 1 _)

/-- Witness for C10 at `n = 739`, desired phase `None`. -/
theorem geometry_score_bounded_witness :
    ((none : Option ℤ) = none ∨ (none : Option ℤ) = some 1 ∨
      (none : Option ℤ) = some (-1) ∨ (none : Option ℤ) = some 0) ∧
    (0 ≤ geometry_score 739 none ∧ geometry_score 739 none ≤ 1) :=
  ⟨Or.inl rfl, geometry_score_bounded 739 none (Or.inl rfl)⟩

end DeltaE6B
